import Mathlib

/-!
Verification of the rust-doca resource-lifecycle library.

This file gives a shallow embedding of the parts of the crate that the
claims C1-C10 are about, translated from the Rust source:

* `src/doca/src/device.rs` : device enumeration, PCI-address formatting and
  `open_device_with_pci`;
* `src/doca/src/memory/mod.rs` : `DOCAMmap` (construction, `add_device`,
  `rm_device`, `export`, the `Drop` impl and its `ok` flag);
* `src/doca/src/context/mod.rs` : `DOCAContext::new` and its `Drop` impl;
* `src/doca/src/context/work_queue.rs` and `src/doca/src/context.rs` :
  the two generations of `poll_completion`, and `DOCAWorkQueue::new`;
* `src/doca/src/lib.rs` : `load_config` / `save_config`.

The native DOCA backend (linked C library) is external to the crate; where a
wrapper's behaviour depends on a backend result the embedding either follows
the contract stated in the crate's own comments (e.g. `doca_mmap_dev_rm` is
rejected on exported or remote maps, `memory/mod.rs` lines 60-66) or takes
the backend result as an explicit parameter of the model.
-/

/-- The DOCA error codes used by the wrapper (the `doca_error` enum of the
bindings), restricted to the constructors the claims mention. -/
inductive doca_error where
  | DOCA_SUCCESS
  | DOCA_ERROR_INVALID_VALUE
  | DOCA_ERROR_NO_MEMORY
  | DOCA_ERROR_NOT_FOUND
  | DOCA_ERROR_NOT_PERMITTED
  | DOCA_ERROR_NOT_SUPPORTED
  | DOCA_ERROR_DRIVER
  | DOCA_ERROR_IO_FAILED
  | DOCA_ERROR_AGAIN
  deriving DecidableEq

/-- Outcome of running a Rust function in the embedding: a normal return
value, an `Err` return, or a Rust panic (index out of bounds, failed
`assert!`, `.unwrap()` on `None`, ...). -/
inductive RResult (α : Type) where
  | ok (val : α)
  | err (e : doca_error)
  | panicked
  deriving DecidableEq

/- ===================== Device layer (`device.rs`) ===================== -/

/-- A PCI bus/device/function triple, the content of `doca_pci_bdf`.
On hardware `bus < 256`, `device < 32` and `function < 8`; the bounds are
not needed for the claims. -/
structure PciBdf where
  bus : Nat
  device : Nat
  function : Nat
  deriving DecidableEq

/-- One lowercase hexadecimal digit, as produced by Rust's `{:x}` format for
a value below 16. -/
def hexDigit (n : Nat) : Char :=
  if n < 10 then Char.ofNat (48 + n) else Char.ofNat (87 + n)

/-- `Device::name` (`device.rs` lines 117-139): formats the PCI address as
`format!("{:x}{:x}:{:x}{:x}.{:x}", bus / 16, bus % 16, device / 16,
device % 16, func)`, i.e. zero-padded 2-digit lowercase-hex bus and device
and a 1-digit function. -/
def Device.name (d : PciBdf) : List Char :=
  [hexDigit (d.bus / 16), hexDigit (d.bus % 16), ':',
   hexDigit (d.device / 16), hexDigit (d.device % 16), '.',
   hexDigit d.function]

/-- The enumerated device list (`DeviceList`, a slice of `doca_devinfo`
pointers); modelled by the list of the devices' PCI addresses. -/
abbrev DeviceList := List PciBdf

/-- `DeviceList::len` (`device.rs` lines 66-69). -/
def DeviceList.len (l : DeviceList) : Nat :=
  List.length l

/-- `DeviceList::get` (`device.rs` lines 82-89): `self.0.get(index).map(...)`,
`Some` exactly on in-range indices. -/
def DeviceList.get (l : DeviceList) (index : Nat) : Option PciBdf :=
  List.get? l index

/-- The scan loop of `open_device_with_pci` (`device.rs` lines 215-222):
the index of the first device whose formatted address equals `pci`
under Rust `String` equality (exact, case-sensitive). -/
def find_pci (pci : List Char) : List PciBdf → Option Nat
  | [] => none
  | d :: rest =>
    if Device.name d = pci then some 0
    else (find_pci pci rest).map Nat.succ

/-- `open_device_with_pci` (`device.rs` lines 212-225): opens the first
enumerated device whose `name()` equals `pci` exactly; when no device
matches it returns `Err(DOCA_ERROR_INVALID_VALUE)`. The opened handle is
identified by the index of the device it was opened from; the backend
`doca_dev_open` is modelled as succeeding. -/
def open_device_with_pci (pci : List Char) (devs : DeviceList) : RResult Nat :=
  match find_pci pci devs with
  | some i => RResult.ok i
  | none => RResult.err doca_error.DOCA_ERROR_INVALID_VALUE

/- ===================== Memory map (`memory/mod.rs`) ===================== -/

/-- An opened device handle (`DevContext`), identified by a number. -/
abbrev Dev := Nat

/-- `DOCAMmap` (`memory/mod.rs` lines 51-58) together with the one piece of
native state its methods branch on.  `ctx` is the wrapper's `Vec` of
registered device handles and `ok` its drop-control flag.
`removalAllowed` is the native map's device-removal legality: per the
crate's own comment (lines 60-66) `doca_mmap_dev_rm` is not permitted on a
map that has been exported or was created from an export, so the flag
starts `true` for a local map, `false` for a remote one, and falls to
`false` on a successful export. -/
structure DOCAMmap where
  ctx : List Dev
  ok : Bool
  removalAllowed : Bool
  deriving DecidableEq

/-- `DOCAMmap::new` (lines 104-125): fresh local map, `ctx` empty,
`ok = true`. -/
def DOCAMmap.new : DOCAMmap :=
  { ctx := [], ok := true, removalAllowed := true }

/-- `DOCAMmap::new_from_export` (lines 156-180): remote map bound to one
device, `ok = false`; device removal is never permitted on it. -/
def DOCAMmap.new_from_export (d : Dev) : DOCAMmap :=
  { ctx := [d], ok := false, removalAllowed := false }

/-- `DOCAMmap::rm_device` (lines 235-244): `self.ctx[_dev_idx]` panics when
the index is out of range; otherwise `doca_mmap_dev_rm` is called, which
fails on a map whose removal legality is gone (exported or remote, per the
crate comment) and succeeds otherwise.  Note the receiver is `&self`, so
`ctx` is never shrunk. -/
def DOCAMmap.rm_device (m : DOCAMmap) (dev_idx : Nat) : RResult Unit :=
  if dev_idx < m.ctx.length then
    if m.removalAllowed then RResult.ok ()
    else RResult.err doca_error.DOCA_ERROR_NOT_PERMITTED
  else RResult.panicked

/-- `DOCAMmap::add_device` (lines 221-230): `doca_mmap_dev_add` registers the
device (illegal on exported/remote maps, like removal); on success the
handle is pushed and its index returned. -/
def DOCAMmap.add_device (m : DOCAMmap) (d : Dev) : RResult Nat × DOCAMmap :=
  if m.removalAllowed then
    (RResult.ok m.ctx.length, { m with ctx := m.ctx ++ [d] })
  else (RResult.err doca_error.DOCA_ERROR_NOT_PERMITTED, m)

/-- `DOCAMmap::export` (lines 189-218): fails with `DOCA_ERROR_INVALID_VALUE`
when `dev_index` is not a registered index (`self.ctx.get(dev_index)
.ok_or(...)`); on success (`doca_mmap_export` modelled as succeeding on a
valid index) it sets `self.ok = false` and the native map becomes
removal-forbidden.  The returned descriptor blob is irrelevant to the
claims and elided. -/
def DOCAMmap.exportMap (m : DOCAMmap) (dev_index : Nat) : RResult Unit × DOCAMmap :=
  if dev_index < m.ctx.length then
    (RResult.ok (), { m with ok := false, removalAllowed := false })
  else (RResult.err doca_error.DOCA_ERROR_INVALID_VALUE, m)

/-- What a destructor run did: the devices it deregistered (in order, before
the release) and whether the native object was released, or a panic. -/
inductive DropOutcome where
  | completed (deregistered : List Dev) (released : Bool)
  | panicked
  deriving DecidableEq

/-- `impl Drop for DOCAMmap` (lines 67-90): when `ok` holds, every handle in
`ctx` is deregistered via `doca_mmap_dev_rm` (a failing call panics);
afterwards `ctx` is cleared and `doca_mmap_destroy` releases the native
object.  When `ok` is false the deregistration loop is skipped. -/
def DOCAMmap.dropRun (m : DOCAMmap) : DropOutcome :=
  if m.ok then
    if m.removalAllowed then DropOutcome.completed m.ctx true
    else if m.ctx.isEmpty then DropOutcome.completed [] true
    else DropOutcome.panicked
  else DropOutcome.completed [] true

/-- The mutating operations a user can apply to a `DOCAMmap`. -/
inductive MmapOp where
  | addDevice (d : Dev)
  | rmDevice (i : Nat)
  | exportOp (i : Nat)
  | populateOp
  deriving DecidableEq

/-- State transition of one operation (`rm_device` takes `&self` and
`populate` only touches native chunks, so neither changes the state). -/
def MmapStep (m : DOCAMmap) : MmapOp → DOCAMmap
  | MmapOp.addDevice d => (m.add_device d).2
  | MmapOp.rmDevice _ => m
  | MmapOp.exportOp i => (m.exportMap i).2
  | MmapOp.populateOp => m

/-- Run a sequence of operations. -/
def runOps (m : DOCAMmap) (ops : List MmapOp) : DOCAMmap :=
  ops.foldl MmapStep m

/-- Whether one operation is a successful `export` in state `m` (its index
is in range at the time of the call). -/
def opExports (m : DOCAMmap) : MmapOp → Bool
  | MmapOp.exportOp i => decide (i < m.ctx.length)
  | _ => false

/-- Whether some `export` call in the sequence succeeds. -/
def exportedDuring (m : DOCAMmap) : List MmapOp → Bool
  | [] => false
  | op :: rest => opExports m op || exportedDuring (MmapStep m op) rest

/-- How a `DOCAMmap` was constructed. -/
inductive MmapInit where
  | newLocal
  | newFromExport (d : Dev)
  deriving DecidableEq

/-- The state right after construction. -/
def initState : MmapInit → DOCAMmap
  | MmapInit.newLocal => DOCAMmap.new
  | MmapInit.newFromExport d => DOCAMmap.new_from_export d

/- ===================== Execution context (`context/mod.rs`) ============ -/

/-- `DOCAContext::new` (`context/mod.rs` lines 43-62).  `env d` is the
backend's answer to `doca_ctx_dev_add` for device `d`.  The function
returns the constructed context's `added_devs` (or the error / panic) and
the list of devices registered in the NATIVE context when it returns.

Faithful control flow: `assert!(!added_devs.is_empty())` panics on an
empty list; the loop `res.add_device(dev)?` aborts on the first failing
add, and at that point `res.added_devs` is still the empty vector
(`res.added_devs = added_devs` only runs after the loop), so the `Drop`
impl (lines 65-82) that runs on the early return deregisters nothing: it
calls `stop` (modelled as succeeding) and then iterates the empty
`added_devs`.  `doca_ctx_start` is modelled as succeeding. -/
def DOCAContext.addLoop (env : Dev → doca_error) (native : List Dev) :
    List Dev → Option doca_error × List Dev
  | [] => (none, native)
  | d :: rest =>
    match env d with
    | doca_error.DOCA_SUCCESS => DOCAContext.addLoop env (native ++ [d]) rest
    | e => (some e, native)

/-- See `DOCAContext.addLoop` for the control-flow notes. -/
def DOCAContext.new (env : Dev → doca_error) (added_devs : List Dev) :
    RResult (List Dev) × List Dev :=
  if added_devs.isEmpty then (RResult.panicked, [])
  else
    match DOCAContext.addLoop env [] added_devs with
    | (some e, native) => (RResult.err e, native)
    | (none, native) => (RResult.ok added_devs, native)

/- ===================== Work queue ===================== -/

/-- Legacy `WorkQueue::poll_completion` (`context.rs` lines 147-158): calls
`doca_workq_progress_retrieve` and re-calls it while the result is
`DOCA_ERROR_AGAIN`, returning the first other code.  The argument is the
sequence of results the backend produces on successive calls; `none`
models the infinite busy-loop reached when every response is `AGAIN`. -/
def WorkQueue.poll_completion : List doca_error → Option doca_error
  | [] => none
  | r :: rest =>
    if r = doca_error.DOCA_ERROR_AGAIN then WorkQueue.poll_completion rest
    else some r

/-- Current `DOCAWorkQueue::poll_completion` (`context/work_queue.rs` lines
107-120): a single `doca_workq_progress_retrieve` attempt whose result `r`
is returned as `Err(r)` whenever it is not `DOCA_SUCCESS` - including
`DOCA_ERROR_AGAIN`. -/
def DOCAWorkQueue.poll_completion (r : doca_error) : RResult Unit :=
  match r with
  | doca_error.DOCA_SUCCESS => RResult.ok ()
  | e => RResult.err e

/-- Backend answers relevant to `DOCAWorkQueue::new`: the results of
`doca_workq_create`, of `doca_ctx_workq_add`, and of a `doca_ctx_workq_rm`
issued for a queue that was never attached to the context (the backend
call the `Drop` impl makes on the attach-failure path). -/
structure WQEnv where
  createResult : doca_error
  attachResult : doca_error
  rmUnattachedResult : doca_error
  deriving DecidableEq

/-- Native footprint of a `DOCAWorkQueue::new` call: was a native queue
created, is it attached to the context, was it destroyed again. -/
structure WQState where
  created : Bool
  attached : Bool
  destroyed : Bool
  deriving DecidableEq

/-- `DOCAWorkQueue::new` (`context/work_queue.rs` lines 71-93): creates the
native queue, then attaches it to the context.  When the attach fails the
function returns `Err(ret)` - which first drops `res`, running the `Drop`
impl (lines 52-67): it calls `doca_ctx_workq_rm` and `assert_eq!`s the
result against `DOCA_SUCCESS` before `doca_workq_destroy`.  On this path
the queue was never attached, so the detach outcome is the backend's
`rmUnattachedResult`: success lets the drop destroy the queue and the
error return reach the caller, anything else fails the assertion and
panics before the destroy. -/
def DOCAWorkQueue.new (env : WQEnv) (depth : Nat) : RResult Nat × WQState :=
  match env.createResult with
  | doca_error.DOCA_SUCCESS =>
    match env.attachResult with
    | doca_error.DOCA_SUCCESS =>
      (RResult.ok depth, { created := true, attached := true, destroyed := false })
    | e =>
      match env.rmUnattachedResult with
      | doca_error.DOCA_SUCCESS =>
        (RResult.err e, { created := true, attached := false, destroyed := true })
      | _ => (RResult.panicked, { created := true, attached := false, destroyed := false })
  | e => (RResult.err e, { created := false, attached := false, destroyed := false })

/- ===================== Config handoff (`lib.rs`) ===================== -/

/-- `DOCA_MAX_EXPORT_LENGTH` (`lib.rs` line 60). -/
def DOCA_MAX_EXPORT_LENGTH : Nat := 2048

/-- The descriptor input file of `load_config`: whether `File::open`
succeeds, whether the reads on it succeed, and its byte content (whose
length is what `metadata().len()` reports). -/
structure DescFileModel where
  openOk : Bool
  readOk : Bool
  content : List Nat
  deriving DecidableEq

/-- The buffer-info input file: whether `File::open` succeeds, whether each
of the two `read_line` calls succeeds, and the text content. -/
structure InfoFileModel where
  openOk : Bool
  read1Ok : Bool
  read2Ok : Bool
  content : List Char
  deriving DecidableEq

/-- Result of `load_config`: the descriptor bytes and length plus the parsed
remote address and length, an error, or a panic. -/
inductive LoadOutcome where
  | ok (desc : List Nat) (descLen : Nat) (addr : Nat) (len : Nat)
  | err (e : doca_error)
  | panicked
  deriving DecidableEq

/-- The characters Rust's `str::trim` strips (Unicode `White_Space`). -/
def rustIsWhitespace (c : Char) : Bool :=
  c.val = 0x9 || c.val = 0xA || c.val = 0xB || c.val = 0xC || c.val = 0xD ||
  c.val = 0x20 || c.val = 0x85 || c.val = 0xA0 || c.val = 0x1680 ||
  (0x2000 ≤ c.val && c.val ≤ 0x200A) ||
  c.val = 0x2028 || c.val = 0x2029 || c.val = 0x202F || c.val = 0x205F ||
  c.val = 0x3000

/-- `str::trim`. -/
def str_trim (s : List Char) : List Char :=
  (((s.dropWhile rustIsWhitespace).reverse).dropWhile rustIsWhitespace).reverse

/-- `str::parse::<u64>`: an optional leading `+`, then one or more ASCII
digits, value below `2^64` (overflow is a parse error). -/
def parse_u64 (s : List Char) : Option Nat :=
  let digits := match s with
    | '+' :: rest => rest
    | other => other
  if digits.isEmpty then none
  else if digits.all Char.isDigit then
    let v := digits.foldl (fun a c => a * 10 + (c.toNat - 48)) 0
    if v < 18446744073709551616 then some v else none
  else none

/-- `BufReader::read_line`: the consumed line (up to and including the first
newline, or the whole remainder at end of file) and the rest. -/
def splitLine : List Char → List Char × List Char
  | [] => ([], [])
  | c :: rest =>
    if c = '\n' then ([c], rest)
    else
      let p := splitLine rest
      (c :: p.1, p.2)

/-- `load_config` (`lib.rs` lines 91-156), step by step: open the descriptor
file (`Err(IO_FAILED)` on failure), take its size from `metadata()`, slice
the fixed 2048-byte buffer to that size - a Rust panic when the size
exceeds the buffer - `read_exact` into it (`IO_FAILED` on failure), open
the info file (`IO_FAILED`), `read_line` the address line (`IO_FAILED`),
`trim`+`parse` it (`INVALID_VALUE` on failure), `read_line` the length
line (`IO_FAILED`), `trim`+`parse` it (`INVALID_VALUE`), and build the
result - where `NonNull::new(remote_addr).unwrap()` panics when the parsed
address is zero. -/
def load_config (desc : DescFileModel) (info : InfoFileModel) : LoadOutcome :=
  if desc.openOk = false then LoadOutcome.err doca_error.DOCA_ERROR_IO_FAILED
  else if DOCA_MAX_EXPORT_LENGTH < desc.content.length then LoadOutcome.panicked
  else if desc.readOk = false then LoadOutcome.err doca_error.DOCA_ERROR_IO_FAILED
  else if info.openOk = false then LoadOutcome.err doca_error.DOCA_ERROR_IO_FAILED
  else if info.read1Ok = false then LoadOutcome.err doca_error.DOCA_ERROR_IO_FAILED
  else
    match parse_u64 (str_trim (splitLine info.content).1) with
    | none => LoadOutcome.err doca_error.DOCA_ERROR_INVALID_VALUE
    | some addr =>
      if info.read2Ok = false then LoadOutcome.err doca_error.DOCA_ERROR_IO_FAILED
      else
        match parse_u64 (str_trim (splitLine (splitLine info.content).2).1) with
        | none => LoadOutcome.err doca_error.DOCA_ERROR_INVALID_VALUE
        | some len =>
          if addr = 0 then LoadOutcome.panicked
          else LoadOutcome.ok desc.content desc.content.length addr len

/-- One output file of `save_config`: whether `File::create`, the writes
(`write_all` / `writeln!`) and `flush` succeed. -/
structure OutFileModel where
  createOk : Bool
  writeOk : Bool
  flushOk : Bool
  deriving DecidableEq

/-- `save_config` (`lib.rs` lines 188-222): create the descriptor file, write
the blob, flush; create the info file, write the two lines, flush; every
failure is mapped to `Err(DOCA_ERROR_IO_FAILED)`. -/
def save_config (descOut : OutFileModel) (infoOut : OutFileModel) : RResult Unit :=
  if descOut.createOk = false then RResult.err doca_error.DOCA_ERROR_IO_FAILED
  else if descOut.writeOk = false then RResult.err doca_error.DOCA_ERROR_IO_FAILED
  else if descOut.flushOk = false then RResult.err doca_error.DOCA_ERROR_IO_FAILED
  else if infoOut.createOk = false then RResult.err doca_error.DOCA_ERROR_IO_FAILED
  else if infoOut.writeOk = false then RResult.err doca_error.DOCA_ERROR_IO_FAILED
  else if infoOut.flushOk = false then RResult.err doca_error.DOCA_ERROR_IO_FAILED
  else RResult.ok ()

/- ===================== Theorems ===================== -/

/-- One operation leaves the `ok` flag alone unless it is a successful
export, which clears it. -/
theorem MmapStep_ok (m : DOCAMmap) (op : MmapOp) :
    (MmapStep m op).ok = (m.ok && !opExports m op) := by
  cases op with
  | addDevice d =>
    simp only [MmapStep, DOCAMmap.add_device, opExports]
    split <;> simp
  | rmDevice i => simp [MmapStep, opExports]
  | exportOp i =>
    simp only [MmapStep, DOCAMmap.exportMap, opExports]
    split <;> simp_all
  | populateOp => simp [MmapStep, opExports]

/-- One operation leaves the native removal-legality flag alone unless it is
a successful export, which clears it. -/
theorem MmapStep_removalAllowed (m : DOCAMmap) (op : MmapOp) :
    (MmapStep m op).removalAllowed = (m.removalAllowed && !opExports m op) := by
  cases op with
  | addDevice d =>
    simp only [MmapStep, DOCAMmap.add_device, opExports]
    split <;> simp
  | rmDevice i => simp [MmapStep, opExports]
  | exportOp i =>
    simp only [MmapStep, DOCAMmap.exportMap, opExports]
    split <;> simp_all
  | populateOp => simp [MmapStep, opExports]

/-- The `ok` flag after a run: it survives exactly when it was set and no
export in the run succeeded. -/
theorem runOps_ok (ops : List MmapOp) (m : DOCAMmap) :
    (runOps m ops).ok = (m.ok && !exportedDuring m ops) := by
  induction ops generalizing m with
  | nil => simp [runOps, exportedDuring]
  | cons op rest ih =>
    have hfold : runOps m (op :: rest) = runOps (MmapStep m op) rest := rfl
    rw [hfold, ih, MmapStep_ok]
    simp [exportedDuring, Bool.and_assoc]

/-- The native removal-legality flag after a run. -/
theorem runOps_removalAllowed (ops : List MmapOp) (m : DOCAMmap) :
    (runOps m ops).removalAllowed = (m.removalAllowed && !exportedDuring m ops) := by
  induction ops generalizing m with
  | nil => simp [runOps, exportedDuring]
  | cons op rest ih =>
    have hfold : runOps m (op :: rest) = runOps (MmapStep m op) rest := rfl
    rw [hfold, ih, MmapStep_removalAllowed]
    simp [exportedDuring, Bool.and_assoc]

/-- C1 (amended). After a successful `export`, every `rm_device` call on an
index inside the registered device list returns an error (it never
succeeds), and every call on an index outside the list panics on the
`self.ctx[_dev_idx]` vector access. -/
theorem C1_rm_device_after_export (init : MmapInit) (ops : List MmapOp)
    (h : exportedDuring (initState init) ops = true) :
    (∀ i, i < (runOps (initState init) ops).ctx.length →
      DOCAMmap.rm_device (runOps (initState init) ops) i =
        RResult.err doca_error.DOCA_ERROR_NOT_PERMITTED) ∧
    (∀ i, (runOps (initState init) ops).ctx.length ≤ i →
      DOCAMmap.rm_device (runOps (initState init) ops) i = RResult.panicked) := by
  have hra : (runOps (initState init) ops).removalAllowed = false := by
    rw [runOps_removalAllowed, h]
    simp
  constructor
  · intro i hi
    simp [DOCAMmap.rm_device, hi, hra]
  · intro i hi
    simp [DOCAMmap.rm_device, Nat.not_lt.mpr hi]

/-- C1 witness: on a local map with one registered device that was exported,
`rm_device(0)` returns an error and `rm_device(1)` panics. -/
theorem C1_rm_device_after_export_witness :
    DOCAMmap.rm_device
        (runOps (initState MmapInit.newLocal) [MmapOp.addDevice 7, MmapOp.exportOp 0]) 0 =
      RResult.err doca_error.DOCA_ERROR_NOT_PERMITTED :=
  (C1_rm_device_after_export MmapInit.newLocal [MmapOp.addDevice 7, MmapOp.exportOp 0]
    (by decide)).1 0 (by decide)

/-- C1 counterexample to the claim as stated: on an exported map with one
registered device, `rm_device(1)` does not return an error - it panics on
the out-of-range `Vec` index. -/
theorem C1_counterexample :
    DOCAMmap.rm_device
        (runOps (initState MmapInit.newLocal) [MmapOp.addDevice 7, MmapOp.exportOp 0]) 1 =
      RResult.panicked := by
  decide

/-- C2. For every constructed map and every operation sequence: the drop
flag `ok` is set exactly when the map was built locally and no export
succeeded; when it is set the destructor deregisters every registered
device and releases the native object; when it is clear the destructor
skips deregistration and only releases. -/
theorem C2_drop_deregisters_iff_legal (init : MmapInit) (ops : List MmapOp) :
    ((runOps (initState init) ops).ok = true ↔
      (init = MmapInit.newLocal ∧ exportedDuring (initState init) ops = false)) ∧
    ((runOps (initState init) ops).ok = true →
      DOCAMmap.dropRun (runOps (initState init) ops) =
        DropOutcome.completed (runOps (initState init) ops).ctx true) ∧
    ((runOps (initState init) ops).ok = false →
      DOCAMmap.dropRun (runOps (initState init) ops) = DropOutcome.completed [] true) := by
  refine ⟨?_, ?_, ?_⟩
  · rw [runOps_ok]
    cases init <;>
      simp [initState, DOCAMmap.new, DOCAMmap.new_from_export]
  · intro h
    have hra : (runOps (initState init) ops).removalAllowed = true := by
      rw [runOps_ok] at h
      rw [runOps_removalAllowed]
      cases init <;> simp_all [initState, DOCAMmap.new, DOCAMmap.new_from_export]
    simp [DOCAMmap.dropRun, h, hra]
  · intro h
    simp [DOCAMmap.dropRun, h]

/-- C2 witness: a local map with one added device and no export has `ok`
set, and its destructor deregisters that device and releases the map. -/
theorem C2_drop_deregisters_iff_legal_witness :
    DOCAMmap.dropRun (runOps (initState MmapInit.newLocal) [MmapOp.addDevice 3]) =
      DropOutcome.completed [3] true :=
  (C2_drop_deregisters_iff_legal MmapInit.newLocal [MmapOp.addDevice 3]).2.1 (by decide)

/-- The backend environment of the C3 failing input: `doca_ctx_dev_add`
succeeds for every device except device `1`, which fails with
`DOCA_ERROR_NO_MEMORY`. -/
def envAddFailsOn1 : Dev → doca_error :=
  fun d => if d = 1 then doca_error.DOCA_ERROR_NO_MEMORY else doca_error.DOCA_SUCCESS

/-- C3 (evaluation at the failing input). `Context::new` with devices
`[0, 1]` where adding device `1` fails: the error is propagated, but
device `0` - added before the failure - is still registered in the native
context when the error returns, because `res.added_devs` is assigned only
after the loop and the `Drop` impl therefore deregisters nothing.  The
claim requires the final native registration list to be empty. -/
theorem C3_half_init_leak :
    DOCAContext.new envAddFailsOn1 [0, 1] =
      (RResult.err doca_error.DOCA_ERROR_NO_MEMORY, [0]) := by
  decide

/-- C4 (amended). The legacy `WorkQueue::poll_completion` (`context.rs`)
consumes `DOCA_ERROR_AGAIN` in its retry loop: whenever it terminates, the
code it hands the caller is never `Again`.  The current
`DOCAWorkQueue::poll_completion` (`context/work_queue.rs`) is a single
attempt and returns every non-success backend code - `Again` included - to
the caller as an `Err`. -/
theorem C4_again_retry (rs : List doca_error) (r : doca_error)
    (h : WorkQueue.poll_completion rs = some r) :
    r ≠ doca_error.DOCA_ERROR_AGAIN ∧
    (∀ e, e ≠ doca_error.DOCA_SUCCESS →
      DOCAWorkQueue.poll_completion e = RResult.err e) := by
  constructor
  · induction rs with
    | nil => simp [WorkQueue.poll_completion] at h
    | cons x rest ih =>
      by_cases hx : x = doca_error.DOCA_ERROR_AGAIN
      · rw [WorkQueue.poll_completion, if_pos hx] at h
        exact ih h
      · rw [WorkQueue.poll_completion, if_neg hx] at h
        cases h
        exact hx
  · intro e he
    cases e <;> first | rfl | exact absurd rfl he

/-- C4 witness: a backend that answers `Again` then success makes the legacy
loop return success, which is not `Again`. -/
theorem C4_again_retry_witness :
    doca_error.DOCA_SUCCESS ≠ doca_error.DOCA_ERROR_AGAIN ∧
    DOCAWorkQueue.poll_completion doca_error.DOCA_ERROR_NO_MEMORY =
      RResult.err doca_error.DOCA_ERROR_NO_MEMORY := by
  have h := C4_again_retry
    [doca_error.DOCA_ERROR_AGAIN, doca_error.DOCA_SUCCESS] doca_error.DOCA_SUCCESS
    (by decide)
  exact ⟨h.1, h.2 doca_error.DOCA_ERROR_NO_MEMORY (by decide)⟩

/-- C4 counterexample to the claim as stated: when the engine reports
`DOCA_ERROR_AGAIN`, the high-level `DOCAWorkQueue::poll_completion`
(`context/work_queue.rs` lines 107-120) returns it to the caller as a
final `Err` - there is no retry loop consuming it. -/
theorem C4_counterexample :
    DOCAWorkQueue.poll_completion doca_error.DOCA_ERROR_AGAIN =
      RResult.err doca_error.DOCA_ERROR_AGAIN := by
  decide

/-- C5 (amended). `Context::new` called with an empty device list does not
return an error: `assert!(!added_devs.is_empty())` fails and the call
panics, whatever the backend does. -/
theorem C5_empty_list_asserts (env : Dev → doca_error) :
    DOCAContext.new env [] = (RResult.panicked, []) := rfl

/-- C5 counterexample to the claim as stated: with a backend on which every
operation succeeds, `Context::new(engine, [])` still panics instead of
returning an error. -/
theorem C5_counterexample :
    DOCAContext.new (fun _ => doca_error.DOCA_SUCCESS) [] = (RResult.panicked, []) := by
  decide

/-- C6 (evaluation at the failing input). `WorkQueue::new` where
`doca_workq_create` succeeds, `doca_ctx_workq_add` fails with
`DOCA_ERROR_NO_MEMORY`, and the backend rejects detaching the
never-attached queue (`doca_ctx_workq_rm` reports `DOCA_ERROR_NOT_PERMITTED`,
its documented answer for a queue that is not registered on the context):
the `Drop` impl's `assert_eq!` fails, so the call panics before
`doca_workq_destroy` runs - the attach error never reaches the caller and
the created native queue is not destroyed, where the claim requires the
error to be returned with the queue destroyed. -/
theorem C6_attach_failure_asserts :
    DOCAWorkQueue.new
        { createResult := doca_error.DOCA_SUCCESS,
          attachResult := doca_error.DOCA_ERROR_NO_MEMORY,
          rmUnattachedResult := doca_error.DOCA_ERROR_NOT_PERMITTED } 1 =
      (RResult.panicked, { created := true, attached := false, destroyed := false }) := by
  decide

/-- The scan loop finds nothing exactly when no enumerated device's
formatted address equals the query. -/
theorem find_pci_eq_none_iff (pci : List Char) (l : List PciBdf) :
    find_pci pci l = none ↔ ∀ d ∈ l, Device.name d ≠ pci := by
  induction l with
  | nil => simp [find_pci]
  | cons d rest ih =>
    by_cases h : Device.name d = pci
    · simp [find_pci, h]
    · simp [find_pci, h, Option.map_eq_none', ih, List.forall_mem_cons]

/-- When the formatted addresses are pairwise distinct, scanning for the
address of the `i`-th device finds exactly index `i`. -/
theorem find_pci_self_of_nodup (l : List PciBdf) (i : Nat) (h : i < l.length)
    (hnd : (l.map Device.name).Nodup) :
    find_pci (Device.name (l.get ⟨i, h⟩)) l = some i := by
  induction l generalizing i with
  | nil => exact absurd h (Nat.not_lt_zero i)
  | cons d rest ih =>
    rw [List.map_cons] at hnd
    rcases List.nodup_cons.mp hnd with ⟨hnotin, hnd2⟩
    cases i with
    | zero =>
      have hget : (d :: rest).get ⟨0, h⟩ = d := rfl
      rw [hget, find_pci, if_pos rfl]
    | succ j =>
      have hj : j < rest.length := Nat.lt_of_succ_lt_succ h
      have hget : (d :: rest).get ⟨j + 1, h⟩ = rest.get ⟨j, hj⟩ := rfl
      have hne : Device.name d ≠ Device.name (rest.get ⟨j, hj⟩) := by
        intro he
        exact hnotin (he ▸ List.mem_map_of_mem Device.name (List.get_mem rest j hj))
      rw [hget, find_pci, if_neg hne, ih j hj hnd2]
      rfl

/-- C7 (amended). `open_device_with_pci(addr)` succeeds exactly when some
enumerated device's formatted address equals `addr` as a string (an exact,
case-sensitive comparison of the lowercase-hex rendering), opening the
first such match; when no device matches it fails with
`DOCA_ERROR_INVALID_VALUE`; and when the enumerated devices' formatted
addresses are pairwise distinct, formatting device `i`'s address with
`name()` and reopening by that string yields that same device. -/
theorem C7_open_by_address (devs : DeviceList) (pci : List Char) :
    ((∃ d ∈ devs, Device.name d = pci) ↔
      ∃ i, open_device_with_pci pci devs = RResult.ok i) ∧
    ((∀ d ∈ devs, Device.name d ≠ pci) →
      open_device_with_pci pci devs = RResult.err doca_error.DOCA_ERROR_INVALID_VALUE) ∧
    (∀ i, ∀ h : i < DeviceList.len devs, (List.map Device.name devs).Nodup →
      open_device_with_pci (Device.name (List.get devs ⟨i, h⟩)) devs = RResult.ok i) := by
  refine ⟨⟨?_, ?_⟩, ?_, ?_⟩
  · rintro ⟨d, hd, hname⟩
    cases hfp : find_pci pci devs with
    | none =>
      rw [find_pci_eq_none_iff] at hfp
      exact absurd hname (hfp d hd)
    | some i =>
      exact ⟨i, by simp [open_device_with_pci, hfp]⟩
  · rintro ⟨i, hi⟩
    by_contra hno
    push_neg at hno
    have hnone := (find_pci_eq_none_iff pci devs).mpr hno
    simp [open_device_with_pci, hnone] at hi
  · intro hall
    rw [open_device_with_pci, (find_pci_eq_none_iff pci devs).mpr hall]
  · intro i h hnd
    rw [open_device_with_pci, find_pci_self_of_nodup devs i h hnd]

/-- C7 witness: with two distinctly-addressed devices, reopening by the
second device's formatted address yields that device, and a query that
matches nothing yields `DOCA_ERROR_INVALID_VALUE`. -/
theorem C7_open_by_address_witness :
    open_device_with_pci (Device.name ⟨3, 0, 1⟩)
        [(⟨0xaf, 0, 0⟩ : PciBdf), ⟨3, 0, 1⟩] = RResult.ok 1 ∧
    open_device_with_pci (String.toList "00:00.0")
        [(⟨0xaf, 0, 0⟩ : PciBdf), ⟨3, 0, 1⟩] =
      RResult.err doca_error.DOCA_ERROR_INVALID_VALUE :=
  ⟨(C7_open_by_address [⟨0xaf, 0, 0⟩, ⟨3, 0, 1⟩] (Device.name ⟨3, 0, 1⟩)).2.2
      1 (by decide) (by decide),
   (C7_open_by_address [⟨0xaf, 0, 0⟩, ⟨3, 0, 1⟩] (String.toList "00:00.0")).2.1
      (by decide)⟩

/-- C7 counterexample to the claim as stated: the device whose formatted
address is `af:00.0` is a case-insensitive match for the query `AF:00.0`,
yet the open fails - the comparison is case-sensitive - and the failure
code is `DOCA_ERROR_INVALID_VALUE`, not the claimed `DOCA_ERROR_NOT_FOUND`. -/
theorem C7_counterexample :
    Device.name ⟨0xaf, 0, 0⟩ = String.toList "af:00.0" ∧
    open_device_with_pci (String.toList "AF:00.0")
        [(⟨0xaf, 0, 0⟩ : PciBdf)] = RResult.err doca_error.DOCA_ERROR_INVALID_VALUE ∧
    open_device_with_pci (String.toList "zz:00.0")
        [(⟨0xaf, 0, 0⟩ : PciBdf)] ≠ RResult.err doca_error.DOCA_ERROR_NOT_FOUND := by
  decide

/-- C8. For every enumerated device list, `get(i)` returns `Some` for every
index below `len()` and `None` for every index at or above it. -/
theorem C8_get_in_range (l : DeviceList) (i : Nat) :
    (i < DeviceList.len l → (DeviceList.get l i).isSome = true) ∧
    (DeviceList.len l ≤ i → DeviceList.get l i = none) := by
  induction l generalizing i with
  | nil =>
    refine ⟨fun h => absurd h (Nat.not_lt_zero i), fun _ => rfl⟩
  | cons d rest ih =>
    cases i with
    | zero =>
      refine ⟨fun _ => rfl, fun h => absurd h (Nat.not_succ_le_zero _)⟩
    | succ j =>
      exact ⟨fun h => (ih j).1 (Nat.lt_of_succ_lt_succ h),
             fun h => (ih j).2 (Nat.le_of_succ_le_succ h)⟩

/-- C8 witness: on a one-element list, index 0 is `Some` and index 5 is
`None`. -/
theorem C8_get_in_range_witness :
    (DeviceList.get [(⟨1, 2, 3⟩ : PciBdf)] 0).isSome = true ∧
    DeviceList.get [(⟨1, 2, 3⟩ : PciBdf)] 5 = none :=
  ⟨(C8_get_in_range [⟨1, 2, 3⟩] 0).1 (by decide),
   (C8_get_in_range [⟨1, 2, 3⟩] 5).2 (by decide)⟩

/-- C9 (amended). The error-kind contract of the handoff layer, scoped to
descriptor files that fit the fixed 2048-byte buffer (larger readable
descriptors panic instead, see C10): a failing open of the descriptor file
always yields `IO_FAILED`; with a fitting descriptor, every failing read
or open yields `IO_FAILED`; an address or length line that does not parse
as a decimal `u64` yields `INVALID_VALUE`; and `save_config` yields
`IO_FAILED` on every create/write/flush failure. -/
theorem C9_config_error_kinds (desc : DescFileModel) (info : InfoFileModel)
    (descOut infoOut : OutFileModel) :
    (desc.openOk = false →
      load_config desc info = LoadOutcome.err doca_error.DOCA_ERROR_IO_FAILED) ∧
    (desc.content.length ≤ DOCA_MAX_EXPORT_LENGTH →
      (desc.readOk = false ∨ info.openOk = false ∨ info.read1Ok = false) →
      load_config desc info = LoadOutcome.err doca_error.DOCA_ERROR_IO_FAILED) ∧
    (desc.openOk = true → desc.content.length ≤ DOCA_MAX_EXPORT_LENGTH →
      desc.readOk = true → info.openOk = true → info.read1Ok = true →
      parse_u64 (str_trim (splitLine info.content).1) = none →
      load_config desc info = LoadOutcome.err doca_error.DOCA_ERROR_INVALID_VALUE) ∧
    (∀ a : Nat, desc.openOk = true → desc.content.length ≤ DOCA_MAX_EXPORT_LENGTH →
      desc.readOk = true → info.openOk = true → info.read1Ok = true →
      parse_u64 (str_trim (splitLine info.content).1) = some a →
      info.read2Ok = false →
      load_config desc info = LoadOutcome.err doca_error.DOCA_ERROR_IO_FAILED) ∧
    (∀ a : Nat, desc.openOk = true → desc.content.length ≤ DOCA_MAX_EXPORT_LENGTH →
      desc.readOk = true → info.openOk = true → info.read1Ok = true →
      parse_u64 (str_trim (splitLine info.content).1) = some a →
      info.read2Ok = true →
      parse_u64 (str_trim (splitLine (splitLine info.content).2).1) = none →
      load_config desc info = LoadOutcome.err doca_error.DOCA_ERROR_INVALID_VALUE) ∧
    ((descOut.createOk = false ∨ descOut.writeOk = false ∨ descOut.flushOk = false ∨
      infoOut.createOk = false ∨ infoOut.writeOk = false ∨ infoOut.flushOk = false) →
      save_config descOut infoOut = RResult.err doca_error.DOCA_ERROR_IO_FAILED) := by
  refine ⟨?_, ?_, ?_, ?_, ?_, ?_⟩
  · intro h
    simp [load_config, h]
  · intro hlen hdisj
    have hnl : ¬ DOCA_MAX_EXPORT_LENGTH < desc.content.length := Nat.not_lt.mpr hlen
    rcases hdisj with h | h | h
    · cases hopen : desc.openOk
      · simp [load_config, hopen]
      · simp [load_config, hopen, hnl, h]
    · cases hopen : desc.openOk
      · simp [load_config, hopen]
      · cases hread : desc.readOk
        · simp [load_config, hopen, hnl, hread]
        · simp [load_config, hopen, hnl, hread, h]
    · cases hopen : desc.openOk
      · simp [load_config, hopen]
      · cases hread : desc.readOk
        · simp [load_config, hopen, hnl, hread]
        · cases hiopen : info.openOk
          · simp [load_config, hopen, hnl, hread, hiopen]
          · simp [load_config, hopen, hnl, hread, hiopen, h]
  · intro h1 h2 h3 h4 h5 hparse
    simp [load_config, h1, h3, h4, h5, hparse, Nat.not_lt.mpr h2]
  · intro a h1 h2 h3 h4 h5 hparse hr2
    simp [load_config, h1, h3, h4, h5, hparse, hr2, Nat.not_lt.mpr h2]
  · intro a h1 h2 h3 h4 h5 hparse hr2 hparse2
    simp [load_config, h1, h3, h4, h5, hparse, hr2, hparse2, Nat.not_lt.mpr h2]
  · intro hdisj
    unfold save_config
    split_ifs <;> first | rfl | (rcases hdisj with h | h | h | h | h | h <;> simp_all)

/-- C9 witness: a 3-byte descriptor with an unparsable address line gives
`INVALID_VALUE`, and a `save_config` whose descriptor file cannot be
created gives `IO_FAILED`. -/
theorem C9_config_error_kinds_witness :
    load_config (⟨true, true, [1, 2, 3]⟩ : DescFileModel)
        (⟨true, true, true, String.toList "abc"⟩ : InfoFileModel) =
      LoadOutcome.err doca_error.DOCA_ERROR_INVALID_VALUE ∧
    save_config (⟨false, true, true⟩ : OutFileModel) (⟨true, true, true⟩ : OutFileModel) =
      RResult.err doca_error.DOCA_ERROR_IO_FAILED :=
  ⟨(C9_config_error_kinds ⟨true, true, [1, 2, 3]⟩ ⟨true, true, true, String.toList "abc"⟩
      ⟨false, true, true⟩ ⟨true, true, true⟩).2.2.1
      rfl (by decide) rfl rfl rfl (by decide),
   (C9_config_error_kinds ⟨true, true, [1, 2, 3]⟩ ⟨true, true, true, String.toList "abc"⟩
      ⟨false, true, true⟩ ⟨true, true, true⟩).2.2.2.2.2
      (Or.inl rfl)⟩

set_option maxRecDepth 8192 in
/-- C9 counterexample to the claim as stated: the descriptor file is
readable but holds 2049 bytes; the info file's address line is not a
number, yet `load_config` does not return `INVALID_VALUE` (nor, for a
read failure, `IO_FAILED`) - it panics on the oversized buffer slice first. -/
theorem C9_counterexample :
    load_config (⟨true, true, List.replicate 2049 0⟩ : DescFileModel)
        (⟨true, true, true, String.toList "abc"⟩ : InfoFileModel) =
      LoadOutcome.panicked := by
  simp [load_config, DOCA_MAX_EXPORT_LENGTH, List.length_replicate]

/-- C10. Every readable descriptor file strictly larger than the 2048-byte
`DOCA_MAX_EXPORT_LENGTH` buffer makes `load_config` panic on the
out-of-bounds slice `export_desc_buffer[..export_desc_file_size]` instead
of returning an error. -/
theorem C10_oversized_descriptor_panics (desc : DescFileModel) (info : InfoFileModel)
    (hopen : desc.openOk = true) (_hread : desc.readOk = true)
    (hlen : DOCA_MAX_EXPORT_LENGTH < desc.content.length) :
    load_config desc info = LoadOutcome.panicked := by
  simp [load_config, hopen, hlen]

set_option maxRecDepth 8192 in
/-- C10 witness: a 2049-byte readable descriptor file panics. -/
theorem C10_oversized_descriptor_panics_witness :
    load_config (⟨true, true, List.replicate 2049 0⟩ : DescFileModel)
        (⟨true, true, true, []⟩ : InfoFileModel) = LoadOutcome.panicked :=
  C10_oversized_descriptor_panics ⟨true, true, List.replicate 2049 0⟩ ⟨true, true, true, []⟩
    rfl rfl (by simp [DOCA_MAX_EXPORT_LENGTH, List.length_replicate])
